import Mathlib

/-!
# clog.h — a shallow embedding of the logger and the properties of its specification

The C header `clog.h` is embedded as pure state-passing functions.

* The `Clog` struct becomes the record `Clog`; `FILE*` values are stream
  handles (`Option Nat`, `none` for `NULL`).
* The process environment touched by the logger is the record `World`: the text
  written to `stdout`, the text written to every stream, the set of open
  streams and the number of `time()` calls performed so far.
* The C library is the record `Libc`: the clock readings, `localtime` and
  `strftime`.  `printf` is modelled by `vformat` for the directives `%s`
  and `%%`.
-/

namespace ClogH

/-! ## Data model (clog.h lines 22-47) -/

/-- The constant `CLOG_TIMEBUF_MAX`. -/
def CLOG_TIMEBUF_MAX : Nat := 512

/-- The enum `ClogLevel`. -/
inductive ClogLevel where
  | CLOG_INFO
  | CLOG_WARNING
  | CLOG_ERROR
  | CLOG_NONE
  deriving DecidableEq, Repr

open ClogLevel

/-- The integer value of an enumerator of `ClogLevel`. -/
def ClogLevel.val : ClogLevel → Int
  | CLOG_INFO => 0
  | CLOG_WARNING => 1
  | CLOG_ERROR => 2
  | CLOG_NONE => 3

/-- The broken-down time `struct tm` of the C library. -/
structure Tm where
  tm_sec : Int
  tm_min : Int
  tm_hour : Int
  tm_mday : Int
  tm_mon : Int
  tm_year : Int
  tm_wday : Int
  tm_yday : Int
  tm_isdst : Int
  deriving DecidableEq, Repr

/-- The struct `Clog`. -/
structure Clog where
  raw_time : Int
  tm : Tm
  fmt : String
  time_buf : String
  color : Bool
  min_level : ClogLevel
  to_file : Bool
  fp : Option Nat
  deriving DecidableEq, Repr

/-- The part of the process state the logger acts on. -/
structure World where
  /-- the text written to the standard output so far -/
  stdout : String
  /-- the text written to each stream so far -/
  files : Nat → String
  /-- the streams returned by `fopen` and not yet passed to `fclose` -/
  opened : List Nat
  /-- the number of calls of `time()` so far -/
  ticks : Nat

/-- The C library functions the logger calls for time keeping. -/
structure Libc where
  /-- the reading of the clock at the n-th call of `time()` -/
  time : Nat → Int
  localtime : Int → Tm
  /-- the text `strftime(buf, max, fmt, tm)` leaves in `buf` -/
  strftime : Nat → String → Tm → String

/-- The value of a call together with the logger and the world it leaves. -/
structure Ret (α : Type) where
  val : α
  ci : Clog
  w : World

/-! ## The C library: formatted output and streams -/

/-- The expansion of a `printf` format whose arguments are strings: `%s` consumes
the next argument, `%%` is a percent sign, every other character is copied (the
other conversions of `printf` are not modelled). -/
def vformat : List Char → List String → List Char
  | [], _ => []
  | [c], _ => [c]
  | c :: d :: rest, args =>
    if c = '%' then
      if d = 's' then
        match args with
        | a :: as => a.data ++ vformat rest as
        | [] => vformat rest []
      else if d = '%' then '%' :: vformat rest args
      else c :: vformat (d :: rest) args
    else c :: vformat (d :: rest) args

/-- The text produced by `sprintf(fmt, args...)`. -/
def sprintf (fmt : String) (args : List String) : String :=
  ⟨vformat fmt.data args⟩

/-- The call `printf(fmt, args...)`. -/
def printf (w : World) (fmt : String) (args : List String) : World :=
  { w with stdout := w.stdout ++ sprintf fmt args }

/-- The call `putchar(c)`. -/
def putchar (w : World) (c : Char) : World :=
  { w with stdout := w.stdout ++ String.singleton c }

/-- The call `fprintf(fp, fmt, args...)`; nothing is modelled for a null stream. -/
def fprintf (w : World) (fp : Option Nat) (fmt : String) (args : List String) : World :=
  match fp with
  | some h => { w with files := Function.update w.files h (w.files h ++ sprintf fmt args) }
  | none => w

/-- The call `fputc(c, fp)`; nothing is modelled for a null stream. -/
def fputc (w : World) (c : Char) (fp : Option Nat) : World :=
  match fp with
  | some h => { w with files := Function.update w.files h (w.files h ++ String.singleton c) }
  | none => w

/-- The call `fopen(path, mode)` whose outcome is `r`: a new stream or `NULL`. -/
def fopen (w : World) (_path _mode : String) (r : Option Nat) : World × Option Nat :=
  match r with
  | some h => ({ w with opened := h :: w.opened }, some h)
  | none => (w, none)

/-- The call `fclose(fp)`. -/
def fclose (w : World) (fp : Option Nat) : World :=
  match fp with
  | some h => { w with opened := w.opened.erase h }
  | none => w

/-! ## Construction and configuration (clog.h lines 107-158) -/

/-- The function `clog_new`; `mem` is the content of the block `malloc` returns. -/
def clog_new (mem : Clog) (timeformat : String) : Clog :=
  let ci := mem
  let ci := { ci with fmt := timeformat }
  let ci := { ci with color := false }
  let ci := { ci with to_file := false }
  let ci := { ci with min_level := CLOG_INFO }
  ci

/-- The function `clog_color_enable`. -/
def clog_color_enable (ci : Clog) : Clog :=
  { ci with color := true }

/-- The function `clog_color_disable`. -/
def clog_color_disable (ci : Clog) : Clog :=
  { ci with color := false }

/-- The function `clog_set_minimum_level`. -/
def clog_set_minimum_level (ci : Clog) (min_lvl : ClogLevel) : Clog :=
  { ci with min_level := min_lvl }

/-- The function `clog_output_to_file`; `r` is the outcome of its `fopen`. -/
def clog_output_to_file (ci : Clog) (w : World) (path mode : String) (r : Option Nat) :
    Ret Bool :=
  let ci := { ci with to_file := false }
  let o := fopen w path mode r
  let w := o.1
  let ci := { ci with fp := o.2 }
  if ci.fp = none then
    ⟨false, ci, w⟩
  else
    let ci := { ci with to_file := true }
    ⟨true, ci, w⟩

/-- The function `clog_close_file`. -/
def clog_close_file (ci : Clog) (w : World) : Clog × World :=
  if ci.to_file then
    let ci := { ci with to_file := false }
    (ci, fclose w ci.fp)
  else (ci, w)

/-- The function `clog_update_time`. -/
def clog_update_time (E : Libc) (ci : Clog) (w : World) : Clog × World :=
  let ci := { ci with raw_time := E.time w.ticks }
  let w := { w with ticks := w.ticks + 1 }
  let ci := { ci with tm := E.localtime ci.raw_time }
  let ci := { ci with time_buf := E.strftime CLOG_TIMEBUF_MAX ci.fmt ci.tm }
  (ci, w)

/-- The function `clog_free`: the logger is gone afterwards, the world remains. -/
def clog_free (ci : Clog) (w : World) : World :=
  (clog_close_file ci w).2

/-! ## Emission (clog.h lines 160-209) -/

/-- The macro `_CLOG_INFO`. -/
def _CLOG_INFO (E : Libc) (ci : Clog) (w : World) (FMT : String) (args : List String) :
    Clog × World :=
  let u := clog_update_time E ci w
  let ci := u.1
  let w := u.2
  let w :=
    if ci.color then
      printf w ("[\x1b[96m%s\x1b[0m INFO] \x1b[97m" ++ FMT ++ "\x1b[0m\n") (ci.time_buf :: args)
    else printf w ("[%s INFO] " ++ FMT ++ "\n") (ci.time_buf :: args)
  let w :=
    if ci.to_file then fprintf w ci.fp ("[%s INFO] " ++ FMT ++ "\n") (ci.time_buf :: args)
    else w
  (ci, w)

/-- The macro `_CLOG_WARN`. -/
def _CLOG_WARN (E : Libc) (ci : Clog) (w : World) (FMT : String) (args : List String) :
    Clog × World :=
  let u := clog_update_time E ci w
  let ci := u.1
  let w := u.2
  let w :=
    if ci.color then
      printf w ("[\x1b[96m%s\x1b[0m \x1b[93mWARN\x1b[0m] \x1b[33m" ++ FMT ++ "\x1b[0m\n")
        (ci.time_buf :: args)
    else printf w ("[%s WARN] " ++ FMT ++ "\n") (ci.time_buf :: args)
  let w :=
    if ci.to_file then fprintf w ci.fp ("[%s WARN] " ++ FMT ++ "\n") (ci.time_buf :: args)
    else w
  (ci, w)

/-- The macro `_CLOG_ERROR`. -/
def _CLOG_ERROR (E : Libc) (ci : Clog) (w : World) (FMT : String) (args : List String) :
    Clog × World :=
  let u := clog_update_time E ci w
  let ci := u.1
  let w := u.2
  let w :=
    if ci.color then
      printf w ("[\x1b[96m%s\x1b[0m \x1b[91mERRO\x1b[0m] \x1b[31m" ++ FMT ++ "\x1b[0m\n")
        (ci.time_buf :: args)
    else printf w ("[%s ERRO] " ++ FMT ++ "\n") (ci.time_buf :: args)
  let w :=
    if ci.to_file then fprintf w ci.fp ("[%s ERRO] " ++ FMT ++ "\n") (ci.time_buf :: args)
    else w
  (ci, w)

/-- The macro `clog_info_fmt`. -/
def clog_info_fmt (E : Libc) (ci : Clog) (w : World) (FMT : String) (args : List String) :
    Clog × World :=
  _CLOG_INFO E ci w FMT args

/-- The macro `clog_warn_fmt`. -/
def clog_warn_fmt (E : Libc) (ci : Clog) (w : World) (FMT : String) (args : List String) :
    Clog × World :=
  _CLOG_WARN E ci w FMT args

/-- The macro `clog_error_fmt`. -/
def clog_error_fmt (E : Libc) (ci : Clog) (w : World) (FMT : String) (args : List String) :
    Clog × World :=
  _CLOG_ERROR E ci w FMT args

/-- The function `clog_info`. -/
def clog_info (E : Libc) (ci : Clog) (w : World) (msg : String) : Ret Int :=
  if ci.min_level.val > CLOG_INFO.val then ⟨CLOG_INFO.val, ci, w⟩
  else
    let r := _CLOG_INFO E ci w "%s" [msg]
    ⟨CLOG_INFO.val, r.1, r.2⟩

/-- The function `clog_warn`. -/
def clog_warn (E : Libc) (ci : Clog) (w : World) (msg : String) : Ret Int :=
  if ci.min_level.val > CLOG_WARNING.val then ⟨CLOG_WARNING.val, ci, w⟩
  else
    let r := _CLOG_WARN E ci w "%s" [msg]
    ⟨CLOG_WARNING.val, r.1, r.2⟩

/-- The function `clog_error`. -/
def clog_error (E : Libc) (ci : Clog) (w : World) (msg : String) : Ret Int :=
  if ci.min_level.val > CLOG_ERROR.val then ⟨CLOG_WARNING.val, ci, w⟩
  else
    let r := _CLOG_ERROR E ci w "%s" [msg]
    ⟨CLOG_ERROR.val, r.1, r.2⟩

/-- The function `clog_newline`. -/
def clog_newline (ci : Clog) (w : World) : World :=
  let w := if ci.to_file then fputc w '\n' ci.fp else w
  putchar w '\n'

/-- The function `clog_file_newline`. -/
def clog_file_newline (ci : Clog) (w : World) : World :=
  if ci.to_file then fputc w '\n' ci.fp else w

/-! ## Repeated logging (clog.h lines 213-253)

The variadic arguments are a list whose `none` entries are null pointers; the
loop stops at the first of them. -/

/-- The function `_clog_info_mult`. -/
def _clog_info_mult (E : Libc) : Clog → World → List (Option String) → Ret Int
  | ci, w, some msg :: args =>
    let r := clog_info E ci w msg
    _clog_info_mult E r.ci r.w args
  | ci, w, _ => ⟨CLOG_INFO.val, ci, w⟩

/-- The function `_clog_warn_mult`. -/
def _clog_warn_mult (E : Libc) : Clog → World → List (Option String) → Ret Int
  | ci, w, some msg :: args =>
    let r := clog_warn E ci w msg
    _clog_warn_mult E r.ci r.w args
  | ci, w, _ => ⟨CLOG_WARNING.val, ci, w⟩

/-- The function `_clog_error_mult`. -/
def _clog_error_mult (E : Libc) : Clog → World → List (Option String) → Ret Int
  | ci, w, some msg :: args =>
    let r := clog_warn E ci w msg
    _clog_error_mult E r.ci r.w args
  | ci, w, _ => ⟨CLOG_ERROR.val, ci, w⟩

/-- The macro `clog_info_mult`: the messages followed by `NULL`. -/
def clog_info_mult (E : Libc) (ci : Clog) (w : World) (msgs : List String) : Ret Int :=
  _clog_info_mult E ci w (msgs.map some ++ [none])

/-- The macro `clog_warn_mult`: the messages followed by `NULL`. -/
def clog_warn_mult (E : Libc) (ci : Clog) (w : World) (msgs : List String) : Ret Int :=
  _clog_warn_mult E ci w (msgs.map some ++ [none])

/-- The macro `clog_error_mult`: the messages followed by `NULL`. -/
def clog_error_mult (E : Libc) (ci : Clog) (w : World) (msgs : List String) : Ret Int :=
  _clog_error_mult E ci w (msgs.map some ++ [none])

/-- The function `clog_from_level`. -/
def clog_from_level (lvl : ClogLevel) : Libc → Clog → World → String → Ret Int :=
  match lvl with
  | CLOG_ERROR => clog_error
  | CLOG_WARNING => clog_warn
  | _ => clog_info

/-! ## Weak assertions (clog.h lines 266-280) -/

/-- The function `_clog_assert_weak`. -/
def _clog_assert_weak (E : Libc) (ci : Clog) (w : World) (cond : Bool) (cond_str : String) :
    Ret Bool :=
  if !cond then
    let r := clog_error_fmt E ci w "assertion `%s` failed." [cond_str]
    ⟨false, r.1, r.2⟩
  else ⟨true, ci, w⟩

/-- The function `_clog_assert_msg_weak`. -/
def _clog_assert_msg_weak (E : Libc) (ci : Clog) (w : World) (cond : Bool) (msg : String) :
    Ret Bool :=
  if !cond then
    let r := clog_error_fmt E ci w "%s" [msg]
    ⟨false, r.1, r.2⟩
  else ⟨true, ci, w⟩

/-! ## Concrete environment used to evaluate the model -/

/-- A world in which nothing was written and no stream is open. -/
def World.empty : World := ⟨"", fun _ => "", [], 0⟩

/-- A C library whose clock starts at 0 and whose `strftime` renders only the
seconds, as a letter. -/
def Libc.demo : Libc where
  time := fun n => n
  localtime := fun t => ⟨t, 0, 0, 1, 0, 70, 4, 0, 0⟩
  strftime := fun _ _ tm => String.singleton (Char.ofNat (65 + tm.tm_sec.toNat))

/-- The content of a block of memory before `clog_new` initialises it. -/
def Clog.mem : Clog := ⟨0, ⟨0, 0, 0, 0, 0, 0, 0, 0, 0⟩, "", "", true, CLOG_NONE, true, none⟩

end ClogH


namespace ClogH

open ClogLevel

/-! ## Observations used to state the properties -/

/-- The timestamp an emission on logger `ci` in world `w` renders into `time_buf`. -/
def stamp (E : Libc) (ci : Clog) (w : World) : String :=
  (clog_update_time E ci w).1.time_buf

/-- The number of line terminators in a text. -/
def lineCount (s : String) : Nat :=
  s.data.count '\n'

/-- The text contains the control sequence introducer `ESC [` of an ANSI escape sequence. -/
def hasAnsi (s : String) : Prop :=
  ['\x1b', '['] <:+: s.data

/-- The text `c` is one log line carrying the timestamp `t` and the message `m`: it
ends with a line terminator, and that is its only line terminator besides those
inside `t` and `m`. -/
def OneLine (c t m : String) : Prop :=
  (∃ body : String, c = body ++ "\n") ∧ lineCount c = 1 + lineCount t + lineCount m

/-- The call that took the world from `w` to `w1` on the logger `ci` wrote one log
line with message `msg` to the console, one to the file sink when it is open, and
nothing to any other stream. -/
def Wrote (E : Libc) (ci : Clog) (w w1 : World) (msg : String) : Prop :=
  (∃ c, w1.stdout = w.stdout ++ c ∧ OneLine c (stamp E ci w) msg) ∧
  (ci.to_file = false → w1.files = w.files) ∧
  (∀ h, ci.to_file = true → ci.fp = some h →
    ∃ f, w1.files = Function.update w.files h (w.files h ++ f) ∧ OneLine f (stamp E ci w) msg)

/-- The call that took the world from `w` to `w1` wrote nothing to the console and
nothing to any stream. -/
def Silent (w w1 : World) : Prop :=
  w1.stdout = w.stdout ∧ w1.files = w.files

/-- The call that took the world from `w` to `w1` on the logger `ci` wrote to the
console a text with an ANSI escape sequence exactly when color is enabled, that
text being `colored` then, and wrote to the open file sink a text without one. -/
def AnsiIffColor (ci : Clog) (w w1 : World) (colored : String) : Prop :=
  (∃ c, w1.stdout = w.stdout ++ c ∧ (hasAnsi c ↔ ci.color = true) ∧
    (ci.color = true → c = colored)) ∧
  (∀ h, ci.to_file = true → ci.fp = some h →
    ∃ f, w1.files = Function.update w.files h (w.files h ++ f) ∧ ¬ hasAnsi f)

/-- The logger and the world a call leaves. -/
def Ret.state {α : Type} (r : Ret α) : Clog × World :=
  (r.ci, r.w)

/-- An emit call of the interface with its arguments. -/
inductive Emit where
  | info (msg : String)
  | warn (msg : String)
  | error (msg : String)
  | info_fmt (FMT : String) (args : List String)
  | warn_fmt (FMT : String) (args : List String)
  | error_fmt (FMT : String) (args : List String)
  | info_mult (msgs : List String)
  | warn_mult (msgs : List String)
  | error_mult (msgs : List String)

/-- The effect of one emit call on the logger and the world. -/
def Emit.run (E : Libc) (e : Emit) (s : Clog × World) : Clog × World :=
  match e with
  | .info msg => (clog_info E s.1 s.2 msg).state
  | .warn msg => (clog_warn E s.1 s.2 msg).state
  | .error msg => (clog_error E s.1 s.2 msg).state
  | .info_fmt FMT args => clog_info_fmt E s.1 s.2 FMT args
  | .warn_fmt FMT args => clog_warn_fmt E s.1 s.2 FMT args
  | .error_fmt FMT args => clog_error_fmt E s.1 s.2 FMT args
  | .info_mult msgs => (clog_info_mult E s.1 s.2 msgs).state
  | .warn_mult msgs => (clog_warn_mult E s.1 s.2 msgs).state
  | .error_mult msgs => (clog_error_mult E s.1 s.2 msgs).state

/-- The effect of a sequence of emit calls, first to last. -/
def runEmits (E : Libc) (es : List Emit) (s : Clog × World) : Clog × World :=
  es.foldl (fun s e => e.run E s) s

/-- The single-message call `f` made once for each message of `msgs`, in order. -/
def eachInOrder (f : Libc → Clog → World → String → Ret Int) (E : Libc) (ci : Clog)
    (w : World) (msgs : List String) : Clog × World :=
  msgs.foldl (fun s m => (f E s.1 s.2 m).state) (ci, w)

/-- Two states agree on all that decides the console text of an emit call: the
minimum level, the color flag, the time format, the console so far and the clock. -/
def SameConsole (s1 s2 : Clog × World) : Prop :=
  s1.1.min_level = s2.1.min_level ∧ s1.1.color = s2.1.color ∧ s1.1.fmt = s2.1.fmt ∧
  s1.2.stdout = s2.2.stdout ∧ s1.2.ticks = s2.2.ticks

/-- The logger of the state has no file sink and the streams hold the texts `files`. -/
def NoSink (s : Clog × World) (files : Nat → String) : Prop :=
  s.1.to_file = false ∧ s.2.files = files

/-- A logger on which every severity passes, used to evaluate the model: no color,
no file sink. -/
def Clog.demo : Clog := clog_new Clog.mem "%S"

/-- A logger with an open file sink on stream 7. -/
def Clog.demoFile : Clog := (clog_output_to_file Clog.demo World.empty "log.txt" "w" (some 7)).ci

/-- The world after the sink of `Clog.demoFile` was opened. -/
def World.demoFile : World := (clog_output_to_file Clog.demo World.empty "log.txt" "w" (some 7)).w

/-! ## Expansion of the format strings of the emission macros -/

theorem sprintf_info_plain (t m : String) :
    sprintf "[%s INFO] %s\n" [t, m] = "[" ++ t ++ " INFO] " ++ m ++ "\n" := by
  apply String.ext
  simp [sprintf, vformat]

theorem sprintf_warn_plain (t m : String) :
    sprintf "[%s WARN] %s\n" [t, m] = "[" ++ t ++ " WARN] " ++ m ++ "\n" := by
  apply String.ext
  simp [sprintf, vformat]

theorem sprintf_error_plain (t m : String) :
    sprintf "[%s ERRO] %s\n" [t, m] = "[" ++ t ++ " ERRO] " ++ m ++ "\n" := by
  apply String.ext
  simp [sprintf, vformat]

theorem sprintf_info_color (t m : String) :
    sprintf "[\x1b[96m%s\x1b[0m INFO] \x1b[97m%s\x1b[0m\n" [t, m]
      = "[\x1b[96m" ++ t ++ "\x1b[0m INFO] \x1b[97m" ++ m ++ "\x1b[0m\n" := by
  apply String.ext
  simp [sprintf, vformat]

theorem sprintf_warn_color (t m : String) :
    sprintf "[\x1b[96m%s\x1b[0m \x1b[93mWARN\x1b[0m] \x1b[33m%s\x1b[0m\n" [t, m]
      = "[\x1b[96m" ++ t ++ "\x1b[0m \x1b[93mWARN\x1b[0m] \x1b[33m" ++ m ++ "\x1b[0m\n" := by
  apply String.ext
  simp [sprintf, vformat]

theorem sprintf_error_color (t m : String) :
    sprintf "[\x1b[96m%s\x1b[0m \x1b[91mERRO\x1b[0m] \x1b[31m%s\x1b[0m\n" [t, m]
      = "[\x1b[96m" ++ t ++ "\x1b[0m \x1b[91mERRO\x1b[0m] \x1b[31m" ++ m ++ "\x1b[0m\n" := by
  apply String.ext
  simp [sprintf, vformat]

theorem sprintf_assert_plain (t c : String) :
    sprintf "[%s ERRO] assertion `%s` failed.\n" [t, c]
      = "[" ++ t ++ " ERRO] " ++ ("assertion `" ++ c ++ "` failed.") ++ "\n" := by
  apply String.ext
  simp [sprintf, vformat]

theorem sprintf_assert_color (t c : String) :
    sprintf "[\x1b[96m%s\x1b[0m \x1b[91mERRO\x1b[0m] \x1b[31massertion `%s` failed.\x1b[0m\n" [t, c]
      = "[\x1b[96m" ++ t ++ "\x1b[0m \x1b[91mERRO\x1b[0m] \x1b[31m"
          ++ ("assertion `" ++ c ++ "` failed.") ++ "\x1b[0m\n" := by
  apply String.ext
  simp [sprintf, vformat]

theorem oneLine_info_plain (t m : String) :
    OneLine ("[" ++ t ++ " INFO] " ++ m ++ "\n") t m := by
  refine ⟨⟨"[" ++ t ++ " INFO] " ++ m, rfl⟩, ?_⟩
  simp [lineCount, List.count_cons]
  omega

theorem oneLine_info_color (t m : String) :
    OneLine ("[\x1b[96m" ++ t ++ "\x1b[0m INFO] \x1b[97m" ++ m ++ "\x1b[0m\n") t m := by
  refine ⟨⟨"[\x1b[96m" ++ t ++ "\x1b[0m INFO] \x1b[97m" ++ m ++ "\x1b[0m", ?_⟩, ?_⟩
  · apply String.ext
    simp
  · simp [lineCount, List.count_cons]
    omega

theorem oneLine_warn_plain (t m : String) :
    OneLine ("[" ++ t ++ " WARN] " ++ m ++ "\n") t m := by
  refine ⟨⟨"[" ++ t ++ " WARN] " ++ m ++ "", ?_⟩, ?_⟩
  · apply String.ext
    simp
  · simp [lineCount, List.count_cons]
    omega

theorem oneLine_error_plain (t m : String) :
    OneLine ("[" ++ t ++ " ERRO] " ++ m ++ "\n") t m := by
  refine ⟨⟨"[" ++ t ++ " ERRO] " ++ m ++ "", ?_⟩, ?_⟩
  · apply String.ext
    simp
  · simp [lineCount, List.count_cons]
    omega

theorem oneLine_warn_color (t m : String) :
    OneLine ("[\x1b[96m" ++ t ++ "\x1b[0m \x1b[93mWARN\x1b[0m] \x1b[33m" ++ m ++ "\x1b[0m\n") t m := by
  refine ⟨⟨"[\x1b[96m" ++ t ++ "\x1b[0m \x1b[93mWARN\x1b[0m] \x1b[33m" ++ m ++ "\x1b[0m", ?_⟩, ?_⟩
  · apply String.ext
    simp
  · simp [lineCount, List.count_cons]
    omega

theorem oneLine_error_color (t m : String) :
    OneLine ("[\x1b[96m" ++ t ++ "\x1b[0m \x1b[91mERRO\x1b[0m] \x1b[31m" ++ m ++ "\x1b[0m\n") t m := by
  refine ⟨⟨"[\x1b[96m" ++ t ++ "\x1b[0m \x1b[91mERRO\x1b[0m] \x1b[31m" ++ m ++ "\x1b[0m", ?_⟩, ?_⟩
  · apply String.ext
    simp
  · simp [lineCount, List.count_cons]
    omega

/-! ## The state an emission macro leaves, the message passed through `%s` -/

theorem CLOG_INFO_stdout (E : Libc) (ci : Clog) (w : World) (m : String) :
    (_CLOG_INFO E ci w "%s" [m]).2.stdout = w.stdout ++
      (if ci.color then "[\x1b[96m" ++ stamp E ci w ++ "\x1b[0m INFO] \x1b[97m" ++ m ++ "\x1b[0m\n"
       else "[" ++ stamp E ci w ++ " INFO] " ++ m ++ "\n") := by
  cases hc : ci.color <;> cases hf : ci.to_file <;> cases hp : ci.fp <;>
    simp [_CLOG_INFO, clog_update_time, printf, fprintf, stamp, hc, hf, hp,
      sprintf_info_plain, sprintf_info_color]

theorem CLOG_INFO_files_closed (E : Libc) (ci : Clog) (w : World) (FMT : String)
    (args : List String) (hf : ci.to_file = false) :
    (_CLOG_INFO E ci w FMT args).2.files = w.files := by
  cases hc : ci.color <;> simp [_CLOG_INFO, clog_update_time, printf, hc, hf]

theorem CLOG_INFO_files_open (E : Libc) (ci : Clog) (w : World) (m : String) (h : Nat)
    (hf : ci.to_file = true) (hp : ci.fp = some h) :
    (_CLOG_INFO E ci w "%s" [m]).2.files
      = Function.update w.files h (w.files h ++ ("[" ++ stamp E ci w ++ " INFO] " ++ m ++ "\n")) := by
  cases hc : ci.color <;>
    simp [_CLOG_INFO, clog_update_time, printf, fprintf, stamp, hc, hf, hp, sprintf_info_plain]

theorem CLOG_INFO_opened (E : Libc) (ci : Clog) (w : World) (FMT : String) (args : List String) :
    (_CLOG_INFO E ci w FMT args).2.opened = w.opened := by
  cases hc : ci.color <;> cases hf : ci.to_file <;> cases hp : ci.fp <;>
    simp [_CLOG_INFO, clog_update_time, printf, fprintf, hc, hf, hp]

theorem CLOG_INFO_ticks (E : Libc) (ci : Clog) (w : World) (FMT : String) (args : List String) :
    (_CLOG_INFO E ci w FMT args).2.ticks = w.ticks + 1 := by
  cases hc : ci.color <;> cases hf : ci.to_file <;> cases hp : ci.fp <;>
    simp [_CLOG_INFO, clog_update_time, printf, fprintf, hc, hf, hp]

theorem CLOG_WARN_stdout (E : Libc) (ci : Clog) (w : World) (m : String) :
    (_CLOG_WARN E ci w "%s" [m]).2.stdout = w.stdout ++
      (if ci.color then "[\x1b[96m" ++ stamp E ci w ++ "\x1b[0m \x1b[93mWARN\x1b[0m] \x1b[33m" ++ m ++ "\x1b[0m\n"
       else "[" ++ stamp E ci w ++ " WARN] " ++ m ++ "\n") := by
  cases hc : ci.color <;> cases hf : ci.to_file <;> cases hp : ci.fp <;>
    simp [_CLOG_WARN, clog_update_time, printf, fprintf, stamp, hc, hf, hp,
      sprintf_warn_plain, sprintf_warn_color]

theorem CLOG_WARN_files_closed (E : Libc) (ci : Clog) (w : World) (FMT : String)
    (args : List String) (hf : ci.to_file = false) :
    (_CLOG_WARN E ci w FMT args).2.files = w.files := by
  cases hc : ci.color <;> simp [_CLOG_WARN, clog_update_time, printf, hc, hf]

theorem CLOG_WARN_files_open (E : Libc) (ci : Clog) (w : World) (m : String) (h : Nat)
    (hf : ci.to_file = true) (hp : ci.fp = some h) :
    (_CLOG_WARN E ci w "%s" [m]).2.files
      = Function.update w.files h (w.files h ++ ("[" ++ stamp E ci w ++ " WARN] " ++ m ++ "\n")) := by
  cases hc : ci.color <;>
    simp [_CLOG_WARN, clog_update_time, printf, fprintf, stamp, hc, hf, hp, sprintf_warn_plain]

theorem CLOG_WARN_opened (E : Libc) (ci : Clog) (w : World) (FMT : String) (args : List String) :
    (_CLOG_WARN E ci w FMT args).2.opened = w.opened := by
  cases hc : ci.color <;> cases hf : ci.to_file <;> cases hp : ci.fp <;>
    simp [_CLOG_WARN, clog_update_time, printf, fprintf, hc, hf, hp]

theorem CLOG_WARN_ticks (E : Libc) (ci : Clog) (w : World) (FMT : String) (args : List String) :
    (_CLOG_WARN E ci w FMT args).2.ticks = w.ticks + 1 := by
  cases hc : ci.color <;> cases hf : ci.to_file <;> cases hp : ci.fp <;>
    simp [_CLOG_WARN, clog_update_time, printf, fprintf, hc, hf, hp]

theorem CLOG_ERROR_stdout (E : Libc) (ci : Clog) (w : World) (m : String) :
    (_CLOG_ERROR E ci w "%s" [m]).2.stdout = w.stdout ++
      (if ci.color then "[\x1b[96m" ++ stamp E ci w ++ "\x1b[0m \x1b[91mERRO\x1b[0m] \x1b[31m" ++ m ++ "\x1b[0m\n"
       else "[" ++ stamp E ci w ++ " ERRO] " ++ m ++ "\n") := by
  cases hc : ci.color <;> cases hf : ci.to_file <;> cases hp : ci.fp <;>
    simp [_CLOG_ERROR, clog_update_time, printf, fprintf, stamp, hc, hf, hp,
      sprintf_error_plain, sprintf_error_color]

theorem CLOG_ERROR_files_closed (E : Libc) (ci : Clog) (w : World) (FMT : String)
    (args : List String) (hf : ci.to_file = false) :
    (_CLOG_ERROR E ci w FMT args).2.files = w.files := by
  cases hc : ci.color <;> simp [_CLOG_ERROR, clog_update_time, printf, hc, hf]

theorem CLOG_ERROR_files_open (E : Libc) (ci : Clog) (w : World) (m : String) (h : Nat)
    (hf : ci.to_file = true) (hp : ci.fp = some h) :
    (_CLOG_ERROR E ci w "%s" [m]).2.files
      = Function.update w.files h (w.files h ++ ("[" ++ stamp E ci w ++ " ERRO] " ++ m ++ "\n")) := by
  cases hc : ci.color <;>
    simp [_CLOG_ERROR, clog_update_time, printf, fprintf, stamp, hc, hf, hp, sprintf_error_plain]

theorem CLOG_ERROR_opened (E : Libc) (ci : Clog) (w : World) (FMT : String) (args : List String) :
    (_CLOG_ERROR E ci w FMT args).2.opened = w.opened := by
  cases hc : ci.color <;> cases hf : ci.to_file <;> cases hp : ci.fp <;>
    simp [_CLOG_ERROR, clog_update_time, printf, fprintf, hc, hf, hp]

theorem CLOG_ERROR_ticks (E : Libc) (ci : Clog) (w : World) (FMT : String) (args : List String) :
    (_CLOG_ERROR E ci w FMT args).2.ticks = w.ticks + 1 := by
  cases hc : ci.color <;> cases hf : ci.to_file <;> cases hp : ci.fp <;>
    simp [_CLOG_ERROR, clog_update_time, printf, fprintf, hc, hf, hp]

/-! ## The level filter -/

/-- C1: each of clog_info, clog_warn and clog_error (levels 0, 1, 2) writes exactly one
line to the console, and one to the file sink when it is open, if its level is at
least the minimum level of the logger, and writes nothing otherwise. -/
theorem C1_level_filter (E : Libc) (ci : Clog) (w : World) (msg : String) :
    ((CLOG_INFO.val ≥ ci.min_level.val → Wrote E ci w (clog_info E ci w msg).w msg) ∧
      (CLOG_INFO.val < ci.min_level.val → Silent w (clog_info E ci w msg).w)) ∧
    ((CLOG_WARNING.val ≥ ci.min_level.val → Wrote E ci w (clog_warn E ci w msg).w msg) ∧
      (CLOG_WARNING.val < ci.min_level.val → Silent w (clog_warn E ci w msg).w)) ∧
    ((CLOG_ERROR.val ≥ ci.min_level.val → Wrote E ci w (clog_error E ci w msg).w msg) ∧
      (CLOG_ERROR.val < ci.min_level.val → Silent w (clog_error E ci w msg).w)) := by
  refine ⟨⟨?_, ?_⟩, ⟨?_, ?_⟩, ⟨?_, ?_⟩⟩
  · intro hl
    have hn : ¬ ci.min_level.val > CLOG_INFO.val := not_lt.mpr hl
    simp only [clog_info, hn, if_false]
    refine ⟨⟨_, CLOG_INFO_stdout E ci w msg, ?_⟩, CLOG_INFO_files_closed E ci w _ _, ?_⟩
    · cases ci.color
      · simpa using oneLine_info_plain _ _
      · simpa using oneLine_info_color _ _
    · intro h hf hp
      exact ⟨_, CLOG_INFO_files_open E ci w msg h hf hp, oneLine_info_plain _ _⟩
  · intro hl
    have hn : ci.min_level.val > CLOG_INFO.val := hl
    simp [clog_info, hn, Silent]
  · intro hl
    have hn : ¬ ci.min_level.val > CLOG_WARNING.val := not_lt.mpr hl
    simp only [clog_warn, hn, if_false]
    refine ⟨⟨_, CLOG_WARN_stdout E ci w msg, ?_⟩, CLOG_WARN_files_closed E ci w _ _, ?_⟩
    · cases ci.color
      · simpa using oneLine_warn_plain _ _
      · simpa using oneLine_warn_color _ _
    · intro h hf hp
      exact ⟨_, CLOG_WARN_files_open E ci w msg h hf hp, oneLine_warn_plain _ _⟩
  · intro hl
    have hn : ci.min_level.val > CLOG_WARNING.val := hl
    simp [clog_warn, hn, Silent]
  · intro hl
    have hn : ¬ ci.min_level.val > CLOG_ERROR.val := not_lt.mpr hl
    simp only [clog_error, hn, if_false]
    refine ⟨⟨_, CLOG_ERROR_stdout E ci w msg, ?_⟩, CLOG_ERROR_files_closed E ci w _ _, ?_⟩
    · cases ci.color
      · simpa using oneLine_error_plain _ _
      · simpa using oneLine_error_color _ _
    · intro h hf hp
      exact ⟨_, CLOG_ERROR_files_open E ci w msg h hf hp, oneLine_error_plain _ _⟩
  · intro hl
    have hn : ci.min_level.val > CLOG_ERROR.val := hl
    simp [clog_error, hn, Silent]

/-- C1 at a concrete input: a logger at the default level writes a warning, a logger
at level CLOG_ERROR does not. -/
theorem C1_level_filter_witness :
    CLOG_WARNING.val ≥ Clog.demo.min_level.val ∧
    Wrote Libc.demo Clog.demo World.empty (clog_warn Libc.demo Clog.demo World.empty "hi").w "hi" ∧
    CLOG_WARNING.val < (clog_set_minimum_level Clog.demo CLOG_ERROR).min_level.val ∧
    Silent World.empty
      (clog_warn Libc.demo (clog_set_minimum_level Clog.demo CLOG_ERROR) World.empty "hi").w :=
  ⟨by decide,
   (C1_level_filter Libc.demo Clog.demo World.empty "hi").2.1.1 (by decide),
   by decide,
   (C1_level_filter Libc.demo (clog_set_minimum_level Clog.demo CLOG_ERROR)
      World.empty "hi").2.1.2 (by decide)⟩

/-- C2 (evaluated on the code): clog_info and clog_warn return their own severity in
every state, but on a logger whose minimum level is CLOG_NONE clog_error returns
CLOG_WARNING (1), which is not CLOG_ERROR (2). -/
theorem C2_clog_error_returns_warning (E : Libc) (ci : Clog) (w : World) (msg : String) :
    (clog_info E ci w msg).val = CLOG_INFO.val ∧
    (clog_warn E ci w msg).val = CLOG_WARNING.val ∧
    (clog_error E (clog_set_minimum_level ci CLOG_NONE) w msg).val = CLOG_WARNING.val ∧
    CLOG_WARNING.val ≠ CLOG_ERROR.val := by
  refine ⟨?_, ?_, ?_, by decide⟩
  · unfold clog_info
    split <;> rfl
  · unfold clog_warn
    split <;> rfl
  · simp [clog_error, clog_set_minimum_level, ClogLevel.val]

/-! ## The text of a line -/

/-- C5: a non-suppressed clog_info, clog_warn or clog_error on a logger with an open
file sink appends to the file exactly the text [t TAG] m and a line terminator,
with TAG one of INFO, WARN, ERRO and t the timestamp rendered by this emission; that
text does not depend on the color flag, the console line carries the same t, and
the console line is the same text when color is disabled. -/
theorem C5_file_line (E : Libc) (ci : Clog) (w : World) (msg : String) (h : Nat)
    (hf : ci.to_file = true) (hp : ci.fp = some h) :
    (CLOG_INFO.val ≥ ci.min_level.val →
      (clog_info E ci w msg).w.files
        = Function.update w.files h (w.files h ++ ("[" ++ stamp E ci w ++ " INFO] " ++ msg ++ "\n")) ∧
      (clog_info E { ci with color := true } w msg).w.files
        = (clog_info E { ci with color := false } w msg).w.files ∧
      (clog_info E ci w msg).ci.time_buf = stamp E ci w ∧
      (clog_info E ci w msg).w.stdout = w.stdout ++
        (if ci.color then "[\x1b[96m" ++ stamp E ci w ++ "\x1b[0m INFO] \x1b[97m" ++ msg ++ "\x1b[0m\n"
         else "[" ++ stamp E ci w ++ " INFO] " ++ msg ++ "\n") ∧
      (ci.color = false →
        (clog_info E ci w msg).w.stdout = w.stdout ++ ("[" ++ stamp E ci w ++ " INFO] " ++ msg ++ "\n"))) ∧
    (CLOG_WARNING.val ≥ ci.min_level.val →
      (clog_warn E ci w msg).w.files
        = Function.update w.files h (w.files h ++ ("[" ++ stamp E ci w ++ " WARN] " ++ msg ++ "\n")) ∧
      (clog_warn E { ci with color := true } w msg).w.files
        = (clog_warn E { ci with color := false } w msg).w.files ∧
      (clog_warn E ci w msg).ci.time_buf = stamp E ci w ∧
      (clog_warn E ci w msg).w.stdout = w.stdout ++
        (if ci.color then "[\x1b[96m" ++ stamp E ci w ++ "\x1b[0m \x1b[93mWARN\x1b[0m] \x1b[33m" ++ msg
            ++ "\x1b[0m\n"
         else "[" ++ stamp E ci w ++ " WARN] " ++ msg ++ "\n") ∧
      (ci.color = false →
        (clog_warn E ci w msg).w.stdout = w.stdout ++ ("[" ++ stamp E ci w ++ " WARN] " ++ msg ++ "\n"))) ∧
    (CLOG_ERROR.val ≥ ci.min_level.val →
      (clog_error E ci w msg).w.files
        = Function.update w.files h (w.files h ++ ("[" ++ stamp E ci w ++ " ERRO] " ++ msg ++ "\n")) ∧
      (clog_error E { ci with color := true } w msg).w.files
        = (clog_error E { ci with color := false } w msg).w.files ∧
      (clog_error E ci w msg).ci.time_buf = stamp E ci w ∧
      (clog_error E ci w msg).w.stdout = w.stdout ++
        (if ci.color then "[\x1b[96m" ++ stamp E ci w ++ "\x1b[0m \x1b[91mERRO\x1b[0m] \x1b[31m" ++ msg
            ++ "\x1b[0m\n"
         else "[" ++ stamp E ci w ++ " ERRO] " ++ msg ++ "\n") ∧
      (ci.color = false →
        (clog_error E ci w msg).w.stdout = w.stdout ++ ("[" ++ stamp E ci w ++ " ERRO] " ++ msg ++ "\n"))) := by
  refine ⟨?_, ?_, ?_⟩
  · intro hl
    have hn : ¬ ci.min_level.val > CLOG_INFO.val := not_lt.mpr hl
    refine ⟨?_, ?_, ?_, ?_, ?_⟩
    · simp only [clog_info, hn, if_false]
      exact CLOG_INFO_files_open E ci w msg h hf hp
    · simp only [clog_info, hn, if_false]
      rw [CLOG_INFO_files_open E { ci with color := true } w msg h hf hp,
        CLOG_INFO_files_open E { ci with color := false } w msg h hf hp]
      rfl
    · simp only [clog_info, hn, if_false]
      rfl
    · simp only [clog_info, hn, if_false]
      exact CLOG_INFO_stdout E ci w msg
    · intro hc
      simp only [clog_info, hn, if_false]
      rw [CLOG_INFO_stdout]
      simp [hc]
  · intro hl
    have hn : ¬ ci.min_level.val > CLOG_WARNING.val := not_lt.mpr hl
    refine ⟨?_, ?_, ?_, ?_, ?_⟩
    · simp only [clog_warn, hn, if_false]
      exact CLOG_WARN_files_open E ci w msg h hf hp
    · simp only [clog_warn, hn, if_false]
      rw [CLOG_WARN_files_open E { ci with color := true } w msg h hf hp,
        CLOG_WARN_files_open E { ci with color := false } w msg h hf hp]
      rfl
    · simp only [clog_warn, hn, if_false]
      rfl
    · simp only [clog_warn, hn, if_false]
      exact CLOG_WARN_stdout E ci w msg
    · intro hc
      simp only [clog_warn, hn, if_false]
      rw [CLOG_WARN_stdout]
      simp [hc]
  · intro hl
    have hn : ¬ ci.min_level.val > CLOG_ERROR.val := not_lt.mpr hl
    refine ⟨?_, ?_, ?_, ?_, ?_⟩
    · simp only [clog_error, hn, if_false]
      exact CLOG_ERROR_files_open E ci w msg h hf hp
    · simp only [clog_error, hn, if_false]
      rw [CLOG_ERROR_files_open E { ci with color := true } w msg h hf hp,
        CLOG_ERROR_files_open E { ci with color := false } w msg h hf hp]
      rfl
    · simp only [clog_error, hn, if_false]
      rfl
    · simp only [clog_error, hn, if_false]
      exact CLOG_ERROR_stdout E ci w msg
    · intro hc
      simp only [clog_error, hn, if_false]
      rw [CLOG_ERROR_stdout]
      simp [hc]

/-- C5 at a concrete input: an error logged with color enabled on a logger whose
file sink is stream 7. -/
theorem C5_file_line_witness :
    (clog_color_enable Clog.demoFile).to_file = true ∧
    (clog_color_enable Clog.demoFile).fp = some 7 ∧
    CLOG_ERROR.val ≥ (clog_color_enable Clog.demoFile).min_level.val ∧
    (clog_error Libc.demo (clog_color_enable Clog.demoFile) World.demoFile "disk full").w.files
      = Function.update World.demoFile.files 7 (World.demoFile.files 7 ++
          ("[" ++ stamp Libc.demo (clog_color_enable Clog.demoFile) World.demoFile
            ++ " ERRO] " ++ "disk full" ++ "\n")) :=
  ⟨by decide, by decide, by decide,
   ((C5_file_line Libc.demo (clog_color_enable Clog.demoFile) World.demoFile "disk full" 7
      (by decide) (by decide)).2.2 (by decide)).1⟩

/-! ## ANSI escape sequences -/

theorem not_hasAnsi_of_no_esc (s : String) (h : '\x1b' ∉ s.data) : ¬ hasAnsi s := by
  intro hi
  exact h (hi.subset (by simp))

theorem hasAnsi_colored (t a m b : String) : hasAnsi ("[\x1b[96m" ++ t ++ a ++ m ++ b) :=
  ⟨['['], ['9', '6', 'm'] ++ t.data ++ a.data ++ m.data ++ b.data, by simp⟩

theorem not_hasAnsi_plain (t m tag : String) (ht : '\x1b' ∉ t.data) (hm : '\x1b' ∉ m.data)
    (hg : '\x1b' ∉ tag.data) : ¬ hasAnsi ("[" ++ t ++ tag ++ m ++ "\n") := by
  apply not_hasAnsi_of_no_esc
  simp [ht, hm, hg]

/-- C6: for a non-suppressed clog_info, clog_warn or clog_error whose timestamp and
message hold no ESC byte, the console line has an ANSI escape sequence exactly when
the color flag is set and the file line never has one; with color the console
line is the cyan timestamp, the tag (yellow 93 for WARN, red 91 for ERRO, plain for
INFO) and the message (97, 33, 31), each color followed by the reset ESC[0m. -/
theorem C6_ansi_iff_color (E : Libc) (ci : Clog) (w : World) (msg : String)
    (ht : '\x1b' ∉ (stamp E ci w).data) (hm : '\x1b' ∉ msg.data) :
    (CLOG_INFO.val ≥ ci.min_level.val →
      AnsiIffColor ci w (clog_info E ci w msg).w
        ("[\x1b[96m" ++ stamp E ci w ++ "\x1b[0m INFO] \x1b[97m" ++ msg ++ "\x1b[0m\n")) ∧
    (CLOG_WARNING.val ≥ ci.min_level.val →
      AnsiIffColor ci w (clog_warn E ci w msg).w
        ("[\x1b[96m" ++ stamp E ci w ++ "\x1b[0m \x1b[93mWARN\x1b[0m] \x1b[33m" ++ msg
          ++ "\x1b[0m\n")) ∧
    (CLOG_ERROR.val ≥ ci.min_level.val →
      AnsiIffColor ci w (clog_error E ci w msg).w
        ("[\x1b[96m" ++ stamp E ci w ++ "\x1b[0m \x1b[91mERRO\x1b[0m] \x1b[31m" ++ msg
          ++ "\x1b[0m\n")) := by
  refine ⟨?_, ?_, ?_⟩
  · intro hl
    have hn : ¬ ci.min_level.val > CLOG_INFO.val := not_lt.mpr hl
    simp only [clog_info, hn, if_false]
    refine ⟨⟨_, CLOG_INFO_stdout E ci w msg, ?_, ?_⟩, ?_⟩
    · cases hc : ci.color
      · simpa using not_hasAnsi_plain _ _ " INFO] " ht hm (by decide)
      · simpa using hasAnsi_colored _ _ _ _
    · intro hc
      simp [hc]
    · intro h hf hp
      exact ⟨_, CLOG_INFO_files_open E ci w msg h hf hp,
        not_hasAnsi_plain _ _ " INFO] " ht hm (by decide)⟩
  · intro hl
    have hn : ¬ ci.min_level.val > CLOG_WARNING.val := not_lt.mpr hl
    simp only [clog_warn, hn, if_false]
    refine ⟨⟨_, CLOG_WARN_stdout E ci w msg, ?_, ?_⟩, ?_⟩
    · cases hc : ci.color
      · simpa using not_hasAnsi_plain _ _ " WARN] " ht hm (by decide)
      · simpa using hasAnsi_colored _ _ _ _
    · intro hc
      simp [hc]
    · intro h hf hp
      exact ⟨_, CLOG_WARN_files_open E ci w msg h hf hp,
        not_hasAnsi_plain _ _ " WARN] " ht hm (by decide)⟩
  · intro hl
    have hn : ¬ ci.min_level.val > CLOG_ERROR.val := not_lt.mpr hl
    simp only [clog_error, hn, if_false]
    refine ⟨⟨_, CLOG_ERROR_stdout E ci w msg, ?_, ?_⟩, ?_⟩
    · cases hc : ci.color
      · simpa using not_hasAnsi_plain _ _ " ERRO] " ht hm (by decide)
      · simpa using hasAnsi_colored _ _ _ _
    · intro hc
      simp [hc]
    · intro h hf hp
      exact ⟨_, CLOG_ERROR_files_open E ci w msg h hf hp,
        not_hasAnsi_plain _ _ " ERRO] " ht hm (by decide)⟩

/-- C6 at a concrete input: a warning logged with color enabled on a logger whose
file sink is stream 7. -/
theorem C6_ansi_iff_color_witness :
    '\x1b' ∉ (stamp Libc.demo (clog_color_enable Clog.demoFile) World.demoFile).data ∧
    '\x1b' ∉ "low battery".data ∧
    CLOG_WARNING.val ≥ (clog_color_enable Clog.demoFile).min_level.val ∧
    AnsiIffColor (clog_color_enable Clog.demoFile) World.demoFile
      (clog_warn Libc.demo (clog_color_enable Clog.demoFile) World.demoFile "low battery").w
      ("[\x1b[96m" ++ stamp Libc.demo (clog_color_enable Clog.demoFile) World.demoFile
        ++ "\x1b[0m \x1b[93mWARN\x1b[0m] \x1b[33m" ++ "low battery" ++ "\x1b[0m\n") :=
  ⟨by decide, by decide, by decide,
   (C6_ansi_iff_color Libc.demo (clog_color_enable Clog.demoFile) World.demoFile
      "low battery" (by decide) (by decide)).2.1 (by decide)⟩

/-! ## Weak assertions -/

theorem CLOG_ERROR_assert (E : Libc) (ci : Clog) (w : World) (c : String) :
    _CLOG_ERROR E ci w "assertion `%s` failed." [c]
      = _CLOG_ERROR E ci w "%s" ["assertion `" ++ c ++ "` failed."] := by
  cases hc : ci.color <;> cases hf : ci.to_file <;> cases hp : ci.fp <;>
    simp [_CLOG_ERROR, clog_update_time, printf, fprintf, hc, hf, hp, sprintf_error_plain,
      sprintf_error_color, sprintf_assert_plain, sprintf_assert_color]

/-- C7: a weak assertion whose condition holds returns true and changes neither the
logger nor the world; one whose condition fails returns false and performs, whatever
the minimum level, exactly the Error emission of the message assertion `c` failed.:
the ERRO line on the console, colored when color is enabled, and the plain ERRO line
on the file sink when it is open. -/
theorem C7_assert_weak (E : Libc) (ci : Clog) (w : World) (c : String) :
    ((_clog_assert_weak E ci w true c).val = true ∧
      (_clog_assert_weak E ci w true c).ci = ci ∧
      (_clog_assert_weak E ci w true c).w = w) ∧
    ((_clog_assert_weak E ci w false c).val = false ∧
      ((_clog_assert_weak E ci w false c).ci, (_clog_assert_weak E ci w false c).w)
        = _CLOG_ERROR E ci w "%s" ["assertion `" ++ c ++ "` failed."] ∧
      (_clog_assert_weak E ci w false c).w.stdout = w.stdout ++
        (if ci.color then "[\x1b[96m" ++ stamp E ci w ++ "\x1b[0m \x1b[91mERRO\x1b[0m] \x1b[31m"
          ++ ("assertion `" ++ c ++ "` failed.") ++ "\x1b[0m\n"
         else "[" ++ stamp E ci w ++ " ERRO] " ++ ("assertion `" ++ c ++ "` failed.") ++ "\n") ∧
      (ci.to_file = false → (_clog_assert_weak E ci w false c).w.files = w.files) ∧
      (∀ h, ci.to_file = true → ci.fp = some h →
        (_clog_assert_weak E ci w false c).w.files
          = Function.update w.files h (w.files h ++ ("[" ++ stamp E ci w ++ " ERRO] " ++ ("assertion `" ++ c ++ "` failed.") ++ "\n")))) := by
  have hw : (_clog_assert_weak E ci w false c).w
      = (_CLOG_ERROR E ci w "%s" ["assertion `" ++ c ++ "` failed."]).2 := by
    simp [_clog_assert_weak, clog_error_fmt, CLOG_ERROR_assert]
  refine ⟨⟨rfl, rfl, rfl⟩, rfl, ?_, ?_, ?_, ?_⟩
  · simp [_clog_assert_weak, clog_error_fmt, CLOG_ERROR_assert]
  · rw [hw, CLOG_ERROR_stdout]
  · intro hf
    rw [hw]
    exact CLOG_ERROR_files_closed E ci w _ _ hf
  · intro h hf hp
    rw [hw]
    exact CLOG_ERROR_files_open E ci w _ h hf hp

/-- C7 at the condition text x > 0, on a logger whose minimum level is CLOG_NONE: the
failed assertion writes its one ERRO line, the one that holds writes nothing. -/
theorem C7_assert_weak_witness :
    (_clog_assert_weak Libc.demo (clog_set_minimum_level Clog.demo CLOG_NONE) World.empty
      false "x > 0").val = false ∧
    (_clog_assert_weak Libc.demo (clog_set_minimum_level Clog.demo CLOG_NONE) World.empty
      false "x > 0").w.stdout = "[A ERRO] assertion `x > 0` failed.\n" ∧
    (_clog_assert_weak Libc.demo (clog_set_minimum_level Clog.demo CLOG_NONE) World.empty
      true "x > 0").w = World.empty :=
  ⟨(C7_assert_weak Libc.demo (clog_set_minimum_level Clog.demo CLOG_NONE) World.empty
      "x > 0").2.1,
   ((C7_assert_weak Libc.demo (clog_set_minimum_level Clog.demo CLOG_NONE) World.empty
      "x > 0").2.2.2.1).trans (by decide),
   (C7_assert_weak Libc.demo (clog_set_minimum_level Clog.demo CLOG_NONE) World.empty
      "x > 0").1.2.2⟩

/-! ## Emit calls on a logger without file sink -/

theorem stamp_congr (E : Libc) (c1 c2 : Clog) (w1 w2 : World) (hf : c1.fmt = c2.fmt)
    (ht : w1.ticks = w2.ticks) : stamp E c1 w1 = stamp E c2 w2 := by
  simp [stamp, clog_update_time, hf, ht]

theorem CLOG_INFO_stdout_fmt (E : Libc) (ci : Clog) (w : World) (FMT : String)
    (args : List String) :
    (_CLOG_INFO E ci w FMT args).2.stdout = w.stdout ++
      sprintf (if ci.color then "[\x1b[96m%s\x1b[0m INFO] \x1b[97m" ++ FMT ++ "\x1b[0m\n" else "[%s INFO] " ++ FMT ++ "\n")
        (stamp E ci w :: args) := by
  cases hc : ci.color <;> cases hf : ci.to_file <;> cases hp : ci.fp <;>
    simp [_CLOG_INFO, clog_update_time, printf, fprintf, stamp, hc, hf, hp]

theorem CLOG_INFO_same (E : Libc) (s1 s2 : Clog × World) (FMT : String) (args : List String)
    (h : SameConsole s1 s2) :
    SameConsole (_CLOG_INFO E s1.1 s1.2 FMT args) (_CLOG_INFO E s2.1 s2.2 FMT args) := by
  obtain ⟨h1, h2, h3, h4, h5⟩ := h
  refine ⟨h1, h2, h3, ?_, ?_⟩
  · rw [CLOG_INFO_stdout_fmt, CLOG_INFO_stdout_fmt, h2, h4, stamp_congr E s1.1 s2.1 s1.2 s2.2 h3 h5]
  · rw [CLOG_INFO_ticks, CLOG_INFO_ticks, h5]

theorem CLOG_INFO_noSink (E : Libc) (s : Clog × World) (FMT : String) (args : List String)
    (files : Nat → String) (h : NoSink s files) :
    NoSink (_CLOG_INFO E s.1 s.2 FMT args) files :=
  ⟨h.1, (CLOG_INFO_files_closed E s.1 s.2 FMT args h.1).trans h.2⟩

theorem CLOG_WARN_stdout_fmt (E : Libc) (ci : Clog) (w : World) (FMT : String)
    (args : List String) :
    (_CLOG_WARN E ci w FMT args).2.stdout = w.stdout ++
      sprintf (if ci.color then "[\x1b[96m%s\x1b[0m \x1b[93mWARN\x1b[0m] \x1b[33m" ++ FMT ++ "\x1b[0m\n" else "[%s WARN] " ++ FMT ++ "\n")
        (stamp E ci w :: args) := by
  cases hc : ci.color <;> cases hf : ci.to_file <;> cases hp : ci.fp <;>
    simp [_CLOG_WARN, clog_update_time, printf, fprintf, stamp, hc, hf, hp]

theorem CLOG_WARN_same (E : Libc) (s1 s2 : Clog × World) (FMT : String) (args : List String)
    (h : SameConsole s1 s2) :
    SameConsole (_CLOG_WARN E s1.1 s1.2 FMT args) (_CLOG_WARN E s2.1 s2.2 FMT args) := by
  obtain ⟨h1, h2, h3, h4, h5⟩ := h
  refine ⟨h1, h2, h3, ?_, ?_⟩
  · rw [CLOG_WARN_stdout_fmt, CLOG_WARN_stdout_fmt, h2, h4, stamp_congr E s1.1 s2.1 s1.2 s2.2 h3 h5]
  · rw [CLOG_WARN_ticks, CLOG_WARN_ticks, h5]

theorem CLOG_WARN_noSink (E : Libc) (s : Clog × World) (FMT : String) (args : List String)
    (files : Nat → String) (h : NoSink s files) :
    NoSink (_CLOG_WARN E s.1 s.2 FMT args) files :=
  ⟨h.1, (CLOG_WARN_files_closed E s.1 s.2 FMT args h.1).trans h.2⟩

theorem CLOG_ERROR_stdout_fmt (E : Libc) (ci : Clog) (w : World) (FMT : String)
    (args : List String) :
    (_CLOG_ERROR E ci w FMT args).2.stdout = w.stdout ++
      sprintf (if ci.color then "[\x1b[96m%s\x1b[0m \x1b[91mERRO\x1b[0m] \x1b[31m" ++ FMT ++ "\x1b[0m\n" else "[%s ERRO] " ++ FMT ++ "\n")
        (stamp E ci w :: args) := by
  cases hc : ci.color <;> cases hf : ci.to_file <;> cases hp : ci.fp <;>
    simp [_CLOG_ERROR, clog_update_time, printf, fprintf, stamp, hc, hf, hp]

theorem CLOG_ERROR_same (E : Libc) (s1 s2 : Clog × World) (FMT : String) (args : List String)
    (h : SameConsole s1 s2) :
    SameConsole (_CLOG_ERROR E s1.1 s1.2 FMT args) (_CLOG_ERROR E s2.1 s2.2 FMT args) := by
  obtain ⟨h1, h2, h3, h4, h5⟩ := h
  refine ⟨h1, h2, h3, ?_, ?_⟩
  · rw [CLOG_ERROR_stdout_fmt, CLOG_ERROR_stdout_fmt, h2, h4, stamp_congr E s1.1 s2.1 s1.2 s2.2 h3 h5]
  · rw [CLOG_ERROR_ticks, CLOG_ERROR_ticks, h5]

theorem CLOG_ERROR_noSink (E : Libc) (s : Clog × World) (FMT : String) (args : List String)
    (files : Nat → String) (h : NoSink s files) :
    NoSink (_CLOG_ERROR E s.1 s.2 FMT args) files :=
  ⟨h.1, (CLOG_ERROR_files_closed E s.1 s.2 FMT args h.1).trans h.2⟩

theorem clog_info_same (E : Libc) (s1 s2 : Clog × World) (msg : String)
    (h : SameConsole s1 s2) :
    SameConsole (clog_info E s1.1 s1.2 msg).state (clog_info E s2.1 s2.2 msg).state := by
  have hm : s1.1.min_level = s2.1.min_level := h.1
  by_cases hl : s2.1.min_level.val > CLOG_INFO.val
  · simpa [clog_info, Ret.state, hm, hl] using h
  · simpa [clog_info, Ret.state, hm, hl] using CLOG_INFO_same E s1 s2 "%s" [msg] h

theorem clog_info_noSink (E : Libc) (s : Clog × World) (msg : String)
    (files : Nat → String) (h : NoSink s files) :
    NoSink (clog_info E s.1 s.2 msg).state files := by
  by_cases hl : s.1.min_level.val > CLOG_INFO.val
  · simpa [clog_info, Ret.state, hl] using h
  · simpa [clog_info, Ret.state, hl] using CLOG_INFO_noSink E s "%s" [msg] files h

theorem clog_warn_same (E : Libc) (s1 s2 : Clog × World) (msg : String)
    (h : SameConsole s1 s2) :
    SameConsole (clog_warn E s1.1 s1.2 msg).state (clog_warn E s2.1 s2.2 msg).state := by
  have hm : s1.1.min_level = s2.1.min_level := h.1
  by_cases hl : s2.1.min_level.val > CLOG_WARNING.val
  · simpa [clog_warn, Ret.state, hm, hl] using h
  · simpa [clog_warn, Ret.state, hm, hl] using CLOG_WARN_same E s1 s2 "%s" [msg] h

theorem clog_warn_noSink (E : Libc) (s : Clog × World) (msg : String)
    (files : Nat → String) (h : NoSink s files) :
    NoSink (clog_warn E s.1 s.2 msg).state files := by
  by_cases hl : s.1.min_level.val > CLOG_WARNING.val
  · simpa [clog_warn, Ret.state, hl] using h
  · simpa [clog_warn, Ret.state, hl] using CLOG_WARN_noSink E s "%s" [msg] files h

theorem clog_error_same (E : Libc) (s1 s2 : Clog × World) (msg : String)
    (h : SameConsole s1 s2) :
    SameConsole (clog_error E s1.1 s1.2 msg).state (clog_error E s2.1 s2.2 msg).state := by
  have hm : s1.1.min_level = s2.1.min_level := h.1
  by_cases hl : s2.1.min_level.val > CLOG_ERROR.val
  · simpa [clog_error, Ret.state, hm, hl] using h
  · simpa [clog_error, Ret.state, hm, hl] using CLOG_ERROR_same E s1 s2 "%s" [msg] h

theorem clog_error_noSink (E : Libc) (s : Clog × World) (msg : String)
    (files : Nat → String) (h : NoSink s files) :
    NoSink (clog_error E s.1 s.2 msg).state files := by
  by_cases hl : s.1.min_level.val > CLOG_ERROR.val
  · simpa [clog_error, Ret.state, hl] using h
  · simpa [clog_error, Ret.state, hl] using CLOG_ERROR_noSink E s "%s" [msg] files h

theorem clog_info_mult_same (E : Libc) (args : List (Option String)) :
    ∀ s1 s2 : Clog × World, SameConsole s1 s2 →
      SameConsole (_clog_info_mult E s1.1 s1.2 args).state
        (_clog_info_mult E s2.1 s2.2 args).state := by
  induction args with
  | nil => intro s1 s2 h; simpa [_clog_info_mult, Ret.state] using h
  | cons a rest ih =>
    intro s1 s2 h
    cases a with
    | none => simpa [_clog_info_mult, Ret.state] using h
    | some msg =>
      simpa [_clog_info_mult, Ret.state] using ih _ _ (clog_info_same E s1 s2 msg h)

theorem clog_info_mult_noSink (E : Libc) (files : Nat → String)
    (args : List (Option String)) :
    ∀ s : Clog × World, NoSink s files → NoSink (_clog_info_mult E s.1 s.2 args).state files := by
  induction args with
  | nil => intro s h; simpa [_clog_info_mult, Ret.state] using h
  | cons a rest ih =>
    intro s h
    cases a with
    | none => simpa [_clog_info_mult, Ret.state] using h
    | some msg =>
      simpa [_clog_info_mult, Ret.state] using ih _ (clog_info_noSink E s msg files h)

theorem clog_warn_mult_same (E : Libc) (args : List (Option String)) :
    ∀ s1 s2 : Clog × World, SameConsole s1 s2 →
      SameConsole (_clog_warn_mult E s1.1 s1.2 args).state
        (_clog_warn_mult E s2.1 s2.2 args).state := by
  induction args with
  | nil => intro s1 s2 h; simpa [_clog_warn_mult, Ret.state] using h
  | cons a rest ih =>
    intro s1 s2 h
    cases a with
    | none => simpa [_clog_warn_mult, Ret.state] using h
    | some msg =>
      simpa [_clog_warn_mult, Ret.state] using ih _ _ (clog_warn_same E s1 s2 msg h)

theorem clog_warn_mult_noSink (E : Libc) (files : Nat → String)
    (args : List (Option String)) :
    ∀ s : Clog × World, NoSink s files → NoSink (_clog_warn_mult E s.1 s.2 args).state files := by
  induction args with
  | nil => intro s h; simpa [_clog_warn_mult, Ret.state] using h
  | cons a rest ih =>
    intro s h
    cases a with
    | none => simpa [_clog_warn_mult, Ret.state] using h
    | some msg =>
      simpa [_clog_warn_mult, Ret.state] using ih _ (clog_warn_noSink E s msg files h)

theorem clog_error_mult_same (E : Libc) (args : List (Option String)) :
    ∀ s1 s2 : Clog × World, SameConsole s1 s2 →
      SameConsole (_clog_error_mult E s1.1 s1.2 args).state
        (_clog_error_mult E s2.1 s2.2 args).state := by
  induction args with
  | nil => intro s1 s2 h; simpa [_clog_error_mult, Ret.state] using h
  | cons a rest ih =>
    intro s1 s2 h
    cases a with
    | none => simpa [_clog_error_mult, Ret.state] using h
    | some msg =>
      simpa [_clog_error_mult, Ret.state] using ih _ _ (clog_warn_same E s1 s2 msg h)

theorem clog_error_mult_noSink (E : Libc) (files : Nat → String)
    (args : List (Option String)) :
    ∀ s : Clog × World, NoSink s files → NoSink (_clog_error_mult E s.1 s.2 args).state files := by
  induction args with
  | nil => intro s h; simpa [_clog_error_mult, Ret.state] using h
  | cons a rest ih =>
    intro s h
    cases a with
    | none => simpa [_clog_error_mult, Ret.state] using h
    | some msg =>
      simpa [_clog_error_mult, Ret.state] using ih _ (clog_warn_noSink E s msg files h)

theorem Emit_run_same (E : Libc) (e : Emit) (s1 s2 : Clog × World) (h : SameConsole s1 s2) :
    SameConsole (e.run E s1) (e.run E s2) := by
  cases e with
  | info msg => exact clog_info_same E s1 s2 msg h
  | warn msg => exact clog_warn_same E s1 s2 msg h
  | error msg => exact clog_error_same E s1 s2 msg h
  | info_fmt FMT args => exact CLOG_INFO_same E s1 s2 FMT args h
  | warn_fmt FMT args => exact CLOG_WARN_same E s1 s2 FMT args h
  | error_fmt FMT args => exact CLOG_ERROR_same E s1 s2 FMT args h
  | info_mult msgs => exact clog_info_mult_same E _ s1 s2 h
  | warn_mult msgs => exact clog_warn_mult_same E _ s1 s2 h
  | error_mult msgs => exact clog_error_mult_same E _ s1 s2 h

theorem Emit_run_noSink (E : Libc) (e : Emit) (s : Clog × World) (files : Nat → String)
    (h : NoSink s files) : NoSink (e.run E s) files := by
  cases e with
  | info msg => exact clog_info_noSink E s msg files h
  | warn msg => exact clog_warn_noSink E s msg files h
  | error msg => exact clog_error_noSink E s msg files h
  | info_fmt FMT args => exact CLOG_INFO_noSink E s FMT args files h
  | warn_fmt FMT args => exact CLOG_WARN_noSink E s FMT args files h
  | error_fmt FMT args => exact CLOG_ERROR_noSink E s FMT args files h
  | info_mult msgs => exact clog_info_mult_noSink E files _ s h
  | warn_mult msgs => exact clog_warn_mult_noSink E files _ s h
  | error_mult msgs => exact clog_error_mult_noSink E files _ s h

theorem runEmits_same (E : Libc) (es : List Emit) :
    ∀ s1 s2 : Clog × World, SameConsole s1 s2 →
      SameConsole (runEmits E es s1) (runEmits E es s2) := by
  induction es with
  | nil => intro s1 s2 h; exact h
  | cons e rest ih =>
    intro s1 s2 h
    exact ih _ _ (Emit_run_same E e s1 s2 h)

theorem runEmits_noSink (E : Libc) (files : Nat → String) (es : List Emit) :
    ∀ s : Clog × World, NoSink s files → NoSink (runEmits E es s) files := by
  induction es with
  | nil => intro s h; exact h
  | cons e rest ih =>
    intro s h
    exact ih _ (Emit_run_noSink E e s files h)

/-! ## Defaults and the level CLOG_NONE -/

/-- C10: the logger clog_new returns has minimum level CLOG_INFO, no color, no file sink
and the given time format, so on it clog_info, clog_warn and clog_error each write
their plain line to the console and touch no stream; and once the minimum level is set to CLOG_NONE each
of the three writes nothing to the console or to any stream. -/
theorem C10_defaults_and_none (E : Libc) (mem ci : Clog) (f : String) (w : World)
    (msg : String) :
    ((clog_new mem f).min_level = CLOG_INFO ∧ (clog_new mem f).color = false ∧
      (clog_new mem f).to_file = false ∧ (clog_new mem f).fmt = f) ∧
    ((clog_info E (clog_new mem f) w msg).w.stdout
        = w.stdout ++ ("[" ++ stamp E (clog_new mem f) w ++ " INFO] " ++ msg ++ "\n") ∧
      (clog_warn E (clog_new mem f) w msg).w.stdout
        = w.stdout ++ ("[" ++ stamp E (clog_new mem f) w ++ " WARN] " ++ msg ++ "\n") ∧
      (clog_error E (clog_new mem f) w msg).w.stdout
        = w.stdout ++ ("[" ++ stamp E (clog_new mem f) w ++ " ERRO] " ++ msg ++ "\n")) ∧
    ((clog_info E (clog_new mem f) w msg).w.files = w.files ∧
      (clog_warn E (clog_new mem f) w msg).w.files = w.files ∧
      (clog_error E (clog_new mem f) w msg).w.files = w.files) ∧
    (Silent w (clog_info E (clog_set_minimum_level ci CLOG_NONE) w msg).w ∧
      Silent w (clog_warn E (clog_set_minimum_level ci CLOG_NONE) w msg).w ∧
      Silent w (clog_error E (clog_set_minimum_level ci CLOG_NONE) w msg).w) := by
  refine ⟨⟨rfl, rfl, rfl, rfl⟩, ⟨?_, ?_, ?_⟩,
    ⟨(clog_info_noSink E (clog_new mem f, w) msg w.files ⟨rfl, rfl⟩).2,
     (clog_warn_noSink E (clog_new mem f, w) msg w.files ⟨rfl, rfl⟩).2,
     (clog_error_noSink E (clog_new mem f, w) msg w.files ⟨rfl, rfl⟩).2⟩, ?_, ?_, ?_⟩
  · have hn : ¬ (clog_new mem f).min_level.val > CLOG_INFO.val := by
      simp [clog_new, ClogLevel.val]
    simp only [clog_info, hn, if_false]
    rw [CLOG_INFO_stdout]
    simp [clog_new]
  · have hn : ¬ (clog_new mem f).min_level.val > CLOG_WARNING.val := by
      simp [clog_new, ClogLevel.val]
    simp only [clog_warn, hn, if_false]
    rw [CLOG_WARN_stdout]
    simp [clog_new]
  · have hn : ¬ (clog_new mem f).min_level.val > CLOG_ERROR.val := by
      simp [clog_new, ClogLevel.val]
    simp only [clog_error, hn, if_false]
    rw [CLOG_ERROR_stdout]
    simp [clog_new]
  · simp [clog_info, clog_set_minimum_level, ClogLevel.val, Silent]
  · simp [clog_warn, clog_set_minimum_level, ClogLevel.val, Silent]
  · simp [clog_error, clog_set_minimum_level, ClogLevel.val, Silent]

/-! ## Opening the file sink -/

/-- C8: with the outcome of the open as a new stream or a failure, clog_output_to_file
returns true exactly when the open succeeded; on success the logger has a file sink
on the new stream; on failure it returns false, the logger has no file sink, keeps
its minimum level, color flag and time format, and every later sequence of emit
calls writes the console text it writes on a sinkless logger of that configuration
and leaves every stream as it was. -/
theorem C8_output_to_file (ci : Clog) (w : World) (path mode : String) (r : Option Nat) :
    ((clog_output_to_file ci w path mode r).val = true ↔ r ≠ none) ∧
    (∀ h, r = some h →
      (clog_output_to_file ci w path mode r).val = true ∧ (clog_output_to_file ci w path mode r).ci.to_file = true ∧ (clog_output_to_file ci w path mode r).ci.fp = some h) ∧
    (r = none →
      (clog_output_to_file ci w path mode r).val = false ∧ (clog_output_to_file ci w path mode r).ci.to_file = false ∧
      (clog_output_to_file ci w path mode r).ci.min_level = ci.min_level ∧ (clog_output_to_file ci w path mode r).ci.color = ci.color ∧
      (clog_output_to_file ci w path mode r).ci.fmt = ci.fmt ∧
      ∀ (E : Libc) (es : List Emit) (cj : Clog), cj.to_file = false →
        cj.min_level = ci.min_level → cj.color = ci.color → cj.fmt = ci.fmt →
        (runEmits E es (clog_output_to_file ci w path mode r).state).2.stdout = (runEmits E es (cj, w)).2.stdout ∧
        (runEmits E es (clog_output_to_file ci w path mode r).state).2.files = w.files) := by
  refine ⟨?_, ?_, ?_⟩
  · cases r <;> simp [clog_output_to_file, fopen]
  · intro h hr
    subst hr
    simp [clog_output_to_file, fopen]
  · intro hr
    subst hr
    refine ⟨rfl, rfl, rfl, rfl, rfl, ?_⟩
    intro E es cj _ h1 h2 h3
    constructor
    · have hs : SameConsole (clog_output_to_file ci w path mode none).state (cj, w) :=
        ⟨h1.symm, h2.symm, h3.symm, rfl, rfl⟩
      exact (runEmits_same E es _ _ hs).2.2.2.1
    · have hn : NoSink (clog_output_to_file ci w path mode none).state w.files :=
        ⟨rfl, rfl⟩
      exact (runEmits_noSink E w.files es _ hn).2

/-- C8 at a concrete input: on a logger whose sink is stream 7 a second open fails;
the error and the formatted warning logged afterwards reach the console only. -/
theorem C8_output_to_file_witness :
    (clog_output_to_file Clog.demoFile World.demoFile "/no/such/dir/log.txt" "a" none).val
      = false ∧
    (runEmits Libc.demo [Emit.error "x", Emit.warn_fmt "%s!" ["y"]]
      (clog_output_to_file Clog.demoFile World.demoFile "/no/such/dir/log.txt" "a"
        none).state).2.stdout = "[A ERRO] x\n[B WARN] y!\n" ∧
    (runEmits Libc.demo [Emit.error "x", Emit.warn_fmt "%s!" ["y"]]
      (clog_output_to_file Clog.demoFile World.demoFile "/no/such/dir/log.txt" "a"
        none).state).2.files = World.demoFile.files :=
  ⟨((C8_output_to_file Clog.demoFile World.demoFile "/no/such/dir/log.txt" "a" none).2.2
      rfl).1,
   ((((C8_output_to_file Clog.demoFile World.demoFile "/no/such/dir/log.txt" "a" none).2.2
      rfl).2.2.2.2.2 Libc.demo [Emit.error "x", Emit.warn_fmt "%s!" ["y"]] Clog.demo
      (by decide) (by decide) (by decide) (by decide)).1).trans (by decide),
   (((C8_output_to_file Clog.demoFile World.demoFile "/no/such/dir/log.txt" "a" none).2.2
      rfl).2.2.2.2.2 Libc.demo [Emit.error "x", Emit.warn_fmt "%s!" ["y"]] Clog.demo
      (by decide) (by decide) (by decide) (by decide)).2⟩

/-! ## Formatted variants and the level filter -/

theorem fmt_eq_plain_of_passing (E : Libc) (ci : Clog) (w : World) (s : String) :
    (CLOG_INFO.val ≥ ci.min_level.val →
      clog_info_fmt E ci w "%s" [s] = (clog_info E ci w s).state) ∧
    (CLOG_WARNING.val ≥ ci.min_level.val →
      clog_warn_fmt E ci w "%s" [s] = (clog_warn E ci w s).state) ∧
    (CLOG_ERROR.val ≥ ci.min_level.val →
      clog_error_fmt E ci w "%s" [s] = (clog_error E ci w s).state) := by
  refine ⟨?_, ?_, ?_⟩
  · intro hl
    have hn : ¬ ci.min_level.val > CLOG_INFO.val := not_lt.mpr hl
    simp [clog_info, clog_info_fmt, Ret.state, hn]
  · intro hl
    have hn : ¬ ci.min_level.val > CLOG_WARNING.val := not_lt.mpr hl
    simp [clog_warn, clog_warn_fmt, Ret.state, hn]
  · intro hl
    have hn : ¬ ci.min_level.val > CLOG_ERROR.val := not_lt.mpr hl
    simp [clog_error, clog_error_fmt, Ret.state, hn]

/-- C3 (evaluated on the code): the formatted variants have no level filter. On every
logger whose minimum level is CLOG_NONE each of clog_info_fmt, clog_warn_fmt and
clog_error_fmt with format %s appends its line to the console, while clog_info,
clog_warn and clog_error leave the console as it is; on the sample logger the
formatted info writes the line of x and renders the timestamp, the plain info
writes nothing and leaves the timestamp buffer. -/
theorem C3_fmt_has_no_level_filter (E : Libc) (ci : Clog) (w : World) (s : String) :
    ((clog_info_fmt E (clog_set_minimum_level ci CLOG_NONE) w "%s" [s]).2.stdout
        = w.stdout ++
          (if ci.color then "[\x1b[96m" ++ stamp E ci w ++ "\x1b[0m INFO] \x1b[97m" ++ s ++ "\x1b[0m\n"
           else "[" ++ stamp E ci w ++ " INFO] " ++ s ++ "\n") ∧
      (clog_info E (clog_set_minimum_level ci CLOG_NONE) w s).w.stdout = w.stdout) ∧
    ((clog_warn_fmt E (clog_set_minimum_level ci CLOG_NONE) w "%s" [s]).2.stdout
        = w.stdout ++
          (if ci.color then "[\x1b[96m" ++ stamp E ci w ++ "\x1b[0m \x1b[93mWARN\x1b[0m] \x1b[33m" ++ s ++ "\x1b[0m\n"
           else "[" ++ stamp E ci w ++ " WARN] " ++ s ++ "\n") ∧
      (clog_warn E (clog_set_minimum_level ci CLOG_NONE) w s).w.stdout = w.stdout) ∧
    ((clog_error_fmt E (clog_set_minimum_level ci CLOG_NONE) w "%s" [s]).2.stdout
        = w.stdout ++
          (if ci.color then "[\x1b[96m" ++ stamp E ci w ++ "\x1b[0m \x1b[91mERRO\x1b[0m] \x1b[31m" ++ s ++ "\x1b[0m\n"
           else "[" ++ stamp E ci w ++ " ERRO] " ++ s ++ "\n") ∧
      (clog_error E (clog_set_minimum_level ci CLOG_NONE) w s).w.stdout = w.stdout) ∧
    ((clog_info_fmt Libc.demo (clog_set_minimum_level Clog.demo CLOG_NONE) World.empty
        "%s" ["x"]).2.stdout = "[A INFO] x\n" ∧
      (clog_info Libc.demo (clog_set_minimum_level Clog.demo CLOG_NONE) World.empty
        "x").w.stdout = "" ∧
      (clog_info_fmt Libc.demo (clog_set_minimum_level Clog.demo CLOG_NONE) World.empty
        "%s" ["x"]).1.time_buf = "A" ∧
      (clog_info Libc.demo (clog_set_minimum_level Clog.demo CLOG_NONE) World.empty
        "x").ci.time_buf = "") := by
  refine ⟨⟨?_, ?_⟩, ⟨?_, ?_⟩, ⟨?_, ?_⟩, by decide⟩
  · exact CLOG_INFO_stdout E (clog_set_minimum_level ci CLOG_NONE) w s
  · simp [clog_info, clog_set_minimum_level, ClogLevel.val]
  · exact CLOG_WARN_stdout E (clog_set_minimum_level ci CLOG_NONE) w s
  · simp [clog_warn, clog_set_minimum_level, ClogLevel.val]
  · exact CLOG_ERROR_stdout E (clog_set_minimum_level ci CLOG_NONE) w s
  · simp [clog_error, clog_set_minimum_level, ClogLevel.val]

/-! ## Repeated logging -/

theorem info_mult_eq_each (E : Libc) (msgs : List String) :
    ∀ (ci : Clog) (w : World),
      (clog_info_mult E ci w msgs).state = eachInOrder clog_info E ci w msgs ∧
      (clog_info_mult E ci w msgs).val = CLOG_INFO.val := by
  induction msgs with
  | nil => intro ci w; exact ⟨rfl, rfl⟩
  | cons m rest ih =>
    intro ci w
    simpa [clog_info_mult, _clog_info_mult, eachInOrder, Ret.state] using
      ih (clog_info E ci w m).ci (clog_info E ci w m).w

theorem warn_mult_eq_each (E : Libc) (msgs : List String) :
    ∀ (ci : Clog) (w : World),
      (clog_warn_mult E ci w msgs).state = eachInOrder clog_warn E ci w msgs ∧
      (clog_warn_mult E ci w msgs).val = CLOG_WARNING.val := by
  induction msgs with
  | nil => intro ci w; exact ⟨rfl, rfl⟩
  | cons m rest ih =>
    intro ci w
    simpa [clog_warn_mult, _clog_warn_mult, eachInOrder, Ret.state] using
      ih (clog_warn E ci w m).ci (clog_warn E ci w m).w

theorem error_mult_eq_each_warn (E : Libc) (msgs : List String) :
    ∀ (ci : Clog) (w : World),
      (clog_error_mult E ci w msgs).state = eachInOrder clog_warn E ci w msgs ∧
      (clog_error_mult E ci w msgs).val = CLOG_ERROR.val := by
  induction msgs with
  | nil => intro ci w; exact ⟨rfl, rfl⟩
  | cons m rest ih =>
    intro ci w
    simpa [clog_error_mult, _clog_error_mult, eachInOrder, Ret.state] using
      ih (clog_warn E ci w m).ci (clog_warn E ci w m).w

theorem warn_mult_abc :
    (clog_warn_mult Libc.demo (clog_set_minimum_level Clog.demo CLOG_WARNING) World.empty
      ["a", "b", "c"]).w.stdout = "[A WARN] a\n[B WARN] b\n[C WARN] c\n" := by
  decide

/-- C4 (evaluated on the code): the batch emit of errors calls clog_warn for each
message. For every logger and messages it has the effect of clog_warn once per
message, in order, and returns CLOG_ERROR; for the one message a at the default level
it writes a WARN line where clog_error writes an ERRO line, and at minimum level
CLOG_ERROR it writes nothing where clog_error writes its line. -/
theorem C4_error_mult_calls_warn (E : Libc) (ci : Clog) (w : World) (msgs : List String) :
    (clog_error_mult E ci w msgs).state = eachInOrder clog_warn E ci w msgs ∧
    (clog_error_mult E ci w msgs).val = CLOG_ERROR.val ∧
    (clog_error_mult Libc.demo Clog.demo World.empty ["a"]).w.stdout = "[A WARN] a\n" ∧
    (eachInOrder clog_error Libc.demo Clog.demo World.empty ["a"]).2.stdout
      = "[A ERRO] a\n" ∧
    (clog_error_mult Libc.demo (clog_set_minimum_level Clog.demo CLOG_ERROR) World.empty
      ["a"]).w.stdout = "" ∧
    (eachInOrder clog_error Libc.demo (clog_set_minimum_level Clog.demo CLOG_ERROR)
      World.empty ["a"]).2.stdout = "[A ERRO] a\n" :=
  ⟨(error_mult_eq_each_warn E msgs ci w).1, (error_mult_eq_each_warn E msgs ci w).2,
    by decide, by decide, by decide, by decide⟩

/-! ## Ownership of the file sink -/

theorem close_file_closed (ci : Clog) (w : World) (hf : ci.to_file = false) :
    clog_close_file ci w = (ci, w) := by
  simp [clog_close_file, hf]

/-- C9 (evaluated on the code): clog_output_to_file does not close the sink that is
open. After a first open returned stream 1, a second open that returns stream 2
leaves both streams open with the logger owning stream 2 only, and clog_free then
leaves stream 1 open; a second open that fails leaves the logger without a sink
while stream 1 is open, also after clog_free. -/
theorem C9_reopen_leaks_stream :
    ((clog_output_to_file (clog_output_to_file Clog.demo World.empty "a.log" "w" (some 1)).ci
        (clog_output_to_file Clog.demo World.empty "a.log" "w" (some 1)).w
        "b.log" "w" (some 2)).ci.to_file = true ∧
      (clog_output_to_file (clog_output_to_file Clog.demo World.empty "a.log" "w" (some 1)).ci
        (clog_output_to_file Clog.demo World.empty "a.log" "w" (some 1)).w
        "b.log" "w" (some 2)).ci.fp = some 2 ∧
      (clog_output_to_file (clog_output_to_file Clog.demo World.empty "a.log" "w" (some 1)).ci
        (clog_output_to_file Clog.demo World.empty "a.log" "w" (some 1)).w
        "b.log" "w" (some 2)).w.opened = [2, 1] ∧
      (clog_free
        (clog_output_to_file (clog_output_to_file Clog.demo World.empty "a.log" "w" (some 1)).ci
          (clog_output_to_file Clog.demo World.empty "a.log" "w" (some 1)).w
          "b.log" "w" (some 2)).ci
        (clog_output_to_file (clog_output_to_file Clog.demo World.empty "a.log" "w" (some 1)).ci
          (clog_output_to_file Clog.demo World.empty "a.log" "w" (some 1)).w
          "b.log" "w" (some 2)).w).opened = [1]) ∧
    ((clog_output_to_file (clog_output_to_file Clog.demo World.empty "a.log" "w" (some 1)).ci
        (clog_output_to_file Clog.demo World.empty "a.log" "w" (some 1)).w
        "/no/such/dir/b.log" "w" none).ci.to_file = false ∧
      (clog_output_to_file (clog_output_to_file Clog.demo World.empty "a.log" "w" (some 1)).ci
        (clog_output_to_file Clog.demo World.empty "a.log" "w" (some 1)).w
        "/no/such/dir/b.log" "w" none).w.opened = [1] ∧
      (clog_free
        (clog_output_to_file (clog_output_to_file Clog.demo World.empty "a.log" "w" (some 1)).ci
          (clog_output_to_file Clog.demo World.empty "a.log" "w" (some 1)).w
          "/no/such/dir/b.log" "w" none).ci
        (clog_output_to_file (clog_output_to_file Clog.demo World.empty "a.log" "w" (some 1)).ci
          (clog_output_to_file Clog.demo World.empty "a.log" "w" (some 1)).w
          "/no/such/dir/b.log" "w" none).w).opened = [1]) := by
  decide

end ClogH
